import Mathlib

/-!
Shallow embedding of the mcp-ambient-server core
(`src/mcp_ambient_server/client.py` and `src/mcp_ambient_server/server.py`):
the authenticated transport client (`APIClient`), its response/error
normalization (`_handle_response`), the path-safety gate for workspace
file reads, and the tool-dispatch boundary that converts client results
and errors into caller-facing text.

Modelling conventions:
- JSON values are the inductive `Json` (numbers restricted to integers:
  no claim concerns non-integer numerics).  Objects are association lists
  with distinct keys, as produced by a JSON parser.
- An HTTP response carries its status code and the outcome of `.json()`:
  `Except.ok j` when the body parses, `Except.error m` when the parser
  raises (message `m`).
- The network is an oracle `Network : HttpRequest → HttpResult`; each
  client operation returns its Python outcome (`Except ApiError Json`)
  together with the list of HTTP requests it dispatched, so "zero network
  calls" and "no retry" are statable.
- Python exceptions are the inductive `ApiError`, one constructor per
  distinct raise site reachable by the core; `ApiError.message` rebuilds
  the exact Python message string and `ApiError.isValueError` records
  which constructors are instances of Python's `ValueError`
  (`ValueError` raise sites and `json.JSONDecodeError`, a `ValueError`
  subclass).
-/

/-- JSON values as decoded by Python's `json` module (integer numerics). -/
inductive Json where
  | str (s : String)
  | num (n : Int)
  | bool (b : Bool)
  | null
  | arr (elems : List Json)
  | obj (fields : List (String × Json))

/-- Key lookup in a decoded JSON object (keys are distinct). -/
def lookupField : List (String × Json) → String → Option Json
  | [], _ => none
  | (k, v) :: rest, key => if k = key then some v else lookupField rest key

/-- Python type name of a decoded JSON value (as shown by error messages). -/
def pyTypeName : Json → String
  | .str _ => "str"
  | .num _ => "int"
  | .bool _ => "bool"
  | .null => "NoneType"
  | .arr _ => "list"
  | .obj _ => "dict"

mutual

/-- Python `repr()` of a decoded JSON value (strings assumed free of
characters that `repr` would escape). -/
def pyReprJson : Json → String
  | .str s => "'" ++ s ++ "'"
  | .num n => toString n
  | .bool b => if b then "True" else "False"
  | .null => "None"
  | .arr elems => "[" ++ pyReprList elems ++ "]"
  | .obj fields => "\x7b" ++ pyReprFields fields ++ "\x7d"

/-- `repr` of list elements, comma separated. -/
def pyReprList : List Json → String
  | [] => ""
  | [j] => pyReprJson j
  | j :: rest => pyReprJson j ++ ", " ++ pyReprList rest

/-- `repr` of dict items, comma separated. -/
def pyReprFields : List (String × Json) → String
  | [] => ""
  | [(k, v)] => "'" ++ k ++ "': " ++ pyReprJson v
  | (k, v) :: rest => "'" ++ k ++ "': " ++ pyReprJson v ++ ", " ++ pyReprFields rest

end

/-- Python `str()` of a decoded JSON value (as interpolated by f-strings). -/
def pyStrJson (j : Json) : String :=
  match j with
  | .str s => s
  | j => pyReprJson j

/-- Python `str.capitalize`: first character upper-cased, the rest lower-cased. -/
def pyCapitalize (s : String) : String :=
  match s.data with
  | [] => ""
  | c :: cs => ⟨c.toUpper :: cs.map Char.toLower⟩

/-- `n` spaces, for JSON indentation. -/
def spaces (n : Nat) : String := ⟨List.replicate n ' '⟩

mutual

/-- `json.dumps(·, indent=2)` on a decoded JSON value, at current indent. -/
def dumpsJson : Nat → Json → String
  | _, .str s => "\"" ++ s ++ "\""
  | _, .num n => toString n
  | _, .bool b => if b then "true" else "false"
  | _, .null => "null"
  | _, .arr [] => "[]"
  | ind, .arr (j :: rest) => "[\n" ++ dumpsList (ind + 2) (j :: rest) ++ "\n" ++ spaces ind ++ "]"
  | _, .obj [] => "\x7b\x7d"
  | ind, .obj (kv :: rest) =>
      "\x7b\n" ++ dumpsFields (ind + 2) (kv :: rest) ++ "\n" ++ spaces ind ++ "\x7d"

/-- Indented, comma-separated array elements. -/
def dumpsList : Nat → List Json → String
  | _, [] => ""
  | ind, [j] => spaces ind ++ dumpsJson ind j
  | ind, j :: rest => spaces ind ++ dumpsJson ind j ++ ",\n" ++ dumpsList ind rest

/-- Indented, comma-separated object members. -/
def dumpsFields : Nat → List (String × Json) → String
  | _, [] => ""
  | ind, [(k, v)] => spaces ind ++ "\"" ++ k ++ "\": " ++ dumpsJson ind v
  | ind, (k, v) :: rest =>
      spaces ind ++ "\"" ++ k ++ "\": " ++ dumpsJson ind v ++ ",\n" ++ dumpsFields ind rest

end

/-- `format_json` from server.py: `json.dumps(data, indent=2)`. -/
def format_json (data : Json) : String := dumpsJson 0 data

/-- The Python exceptions the core can raise: one constructor per distinct
raise site (plus the dynamic-typing errors `AttributeError`/`TypeError`
reachable on ill-shaped JSON bodies, and `json.JSONDecodeError`). -/
inductive ApiError where
  | authenticationFailed
  | accessDenied (resource_type : String)
  | notFound (resource_type : String)
  | backendError (msg : String)
  | requestFailed (status : Nat)
  | connectError
  | timeoutError
  | valueError (msg : String)
  | jsonDecode (msg : String)
  | attributeError (msg : String)
  | typeError (msg : String)
deriving DecidableEq

/-- Python `str(e)` of each exception: the exact message built at the
raise site. -/
def ApiError.message : ApiError → String
  | .authenticationFailed => "Authentication failed. BOT_TOKEN may be invalid or expired."
  | .accessDenied rt => "Access denied. User does not have permission for this " ++ rt ++ "."
  | .notFound rt => pyCapitalize rt ++ " not found"
  | .backendError m => "Backend API error: " ++ m
  | .requestFailed s => "Request failed with status " ++ toString s
  | .connectError => "Cannot reach backend API. Check cluster connectivity."
  | .timeoutError => "Request timed out after 30s. Backend may be overloaded."
  | .valueError m => m
  | .jsonDecode m => m
  | .attributeError m => m
  | .typeError m => m

/-- Whether the exception is an instance of Python's `ValueError`
(`json.JSONDecodeError` is a `ValueError` subclass). -/
def ApiError.isValueError : ApiError → Bool
  | .valueError _ => true
  | .jsonDecode _ => true
  | _ => false

/-- An HTTP response: status code and the outcome of `response.json()`. -/
structure HttpResponse where
  status_code : Nat
  body : Except String Json

/-- An HTTP GET request as dispatched by the client: the base URL it is
resolved against and the relative path. -/
structure HttpRequest where
  base_url : String
  path : String
deriving DecidableEq

/-- What the network does with one request. -/
inductive HttpResult where
  | success (response : HttpResponse)
  | connectError
  | timeoutError

/-- The network as an oracle mapping each request to its outcome. -/
abbrev Network := HttpRequest → HttpResult

/-- `APIClient._handle_response` from client.py: status-code driven
normalization of one HTTP response. -/
def handle_response (response : HttpResponse) (resource_type : String) :
    Except ApiError Json :=
  if 200 ≤ response.status_code ∧ response.status_code < 300 then
    match response.body with
    | .ok j => .ok j
    | .error m => .error (.jsonDecode m)
  else if response.status_code = 401 then
    .error .authenticationFailed
  else if response.status_code = 403 then
    .error (.accessDenied resource_type)
  else if response.status_code = 404 then
    .error (.notFound resource_type)
  else if 500 ≤ response.status_code then
    .error (.backendError (backendErrorMsg response.body))
  else
    .error (.requestFailed response.status_code)
where
  /-- The `error_msg` computed in the `status >= 500` branch: the body's
  `error` field when the body is a JSON object carrying one (stringified
  by the f-string), the fixed default otherwise (body unparseable, body
  not a dict — `.get` raises and is swallowed — or field absent). -/
  backendErrorMsg : Except String Json → String
    | .ok (.obj fields) =>
        match lookupField fields "error" with
        | some v => pyStrJson v
        | none => "Unknown backend error"
    | _ => "Unknown backend error"

/-- Python `data.get(key, default)` on a decoded JSON value: the looked-up
field (or the default) when `data` is a dict, an `AttributeError`
otherwise. -/
def pyDictGet (data : Json) (key : String) (default : Json) :
    Except ApiError Json :=
  match data with
  | .obj fields => .ok ((lookupField fields key).getD default)
  | j => .error (.attributeError
      ("'" ++ pyTypeName j ++ "' object has no attribute 'get'"))

/-- Python `len()` on a decoded JSON value (defined on str, list, dict;
`TypeError` otherwise). -/
def pyLen (j : Json) : Except ApiError Int :=
  match j with
  | .arr elems => .ok elems.length
  | .str s => .ok s.length
  | .obj fields => .ok fields.length
  | j => .error (.typeError ("object of type '" ++ pyTypeName j ++ "' has no len()"))

/-- Substring occurrence test: does `pat` occur contiguously in `s`? -/
def hasSubstr (pat : List Char) : List Char → Bool
  | [] => pat.isEmpty
  | c :: cs => pat.isPrefixOf (c :: cs) || hasSubstr pat cs

/-- The `".." in path` membership test of `get_workspace_file`:
Python's `in` on strings is substring occurrence. -/
def containsDotDot (path : String) : Bool :=
  hasSubstr ['.', '.'] path.data

/-- Path segments (split on '/'), to talk about parent-directory segments
as opposed to mere substring occurrences of `".."`. -/
def splitOnChar (sep : Char) : List Char → List (List Char)
  | [] => [[]]
  | c :: cs =>
      let rest := splitOnChar sep cs
      if c = sep then [] :: rest
      else
        match rest with
        | [] => [[c]]
        | seg :: segs => (c :: seg) :: segs

/-- Python `s.replace(pat, "")` (all non-overlapping occurrences, left to
right), char-list worker with fuel; each step consumes at least one
character, so fuel `s.length` is enough. -/
def removeOccsAux : Nat → List Char → List Char → List Char
  | 0, s, _ => s
  | _ + 1, [], _ => []
  | fuel + 1, c :: cs, pat =>
      if pat.isPrefixOf (c :: cs) && !pat.isEmpty then
        removeOccsAux fuel ((c :: cs).drop pat.length) pat
      else
        c :: removeOccsAux fuel cs pat

/-- Python `s.replace(pat, "")` on strings. -/
def pyReplaceDel (s pat : String) : String :=
  ⟨removeOccsAux s.data.length s.data pat.data⟩

/-- The process environment variables the client reads. -/
structure Env where
  BACKEND_API_URL : Option String
  BOT_TOKEN : Option String

/-- `os.getenv(var, default)`. -/
def getenvD (v : Option String) (default : String) : String := v.getD default

/-- Python `a or b` on an optional string argument: the argument when it
is supplied and truthy (non-empty), the fallback otherwise. -/
def pyOr (arg : Option String) (fallback : String) : String :=
  match arg with
  | some s => if s = "" then fallback else s
  | none => fallback

/-- The default backend base URL baked into `APIClient.__init__`. -/
def defaultBackendUrl : String :=
  "http://vteam-backend.ambient-code.svc.cluster.local:8080/api"

/-- The constructed client state: base URL and bearer token (the httpx
connection it wraps is modelled by the `Network` oracle passed to each
operation). -/
structure APIClient where
  base_url : String
  token : String
deriving DecidableEq

namespace APIClient

/-- `APIClient.__init__`: resolves the base URL and token from arguments
and environment, raising `ValueError` when no token is available.  The
definition performs no network I/O (its type mentions no `Network`);
on error no client value exists. -/
def init (env : Env) (base_url : Option String) (token : Option String) :
    Except ApiError APIClient :=
  let burl := pyOr base_url (getenvD env.BACKEND_API_URL defaultBackendUrl)
  let tok := pyOr token (getenvD env.BOT_TOKEN "")
  if tok = "" then
    .error (.valueError "BOT_TOKEN environment variable must be set")
  else
    .ok ⟨burl, tok⟩

/-- One `self.client.get(path)` resolved against an explicit base URL,
with the shared `try/except` that renames httpx connection and timeout
failures, followed by `_handle_response`.  The second component is the
list of requests dispatched. -/
def request_get_at (base : String) (net : Network) (path : String)
    (resource_type : String) : Except ApiError Json × List HttpRequest :=
  let req : HttpRequest := ⟨base, path⟩
  match net req with
  | .success resp => (handle_response resp resource_type, [req])
  | .connectError => (.error .connectError, [req])
  | .timeoutError => (.error .timeoutError, [req])

/-- `self.client.get(path)` against the client's configured base URL. -/
def request_get (client : APIClient) (net : Network) (path : String)
    (resource_type : String) : Except ApiError Json × List HttpRequest :=
  request_get_at client.base_url net path resource_type

/-- `APIClient.list_projects`: GET `/projects`, unwrap `items` (default `[]`). -/
def list_projects (client : APIClient) (net : Network) :
    Except ApiError Json × List HttpRequest :=
  let r := client.request_get net "/projects" "projects"
  (r.1.bind (fun data => pyDictGet data "items" (Json.arr [])), r.2)

/-- `APIClient.get_project`: GET `/projects/{project_name}`. -/
def get_project (client : APIClient) (net : Network) (project_name : String) :
    Except ApiError Json × List HttpRequest :=
  client.request_get net ("/projects/" ++ project_name) "project"

/-- `APIClient.check_project_access`: GET `/projects/{project_name}/access`. -/
def check_project_access (client : APIClient) (net : Network)
    (project_name : String) : Except ApiError Json × List HttpRequest :=
  client.request_get net ("/projects/" ++ project_name ++ "/access")
    "access information"

/-- `APIClient.list_sessions`: GET the project's agentic-sessions, unwrap
`items` (default `[]`). -/
def list_sessions (client : APIClient) (net : Network) (project_name : String) :
    Except ApiError Json × List HttpRequest :=
  let r := client.request_get net
    ("/projects/" ++ project_name ++ "/agentic-sessions") "sessions"
  (r.1.bind (fun data => pyDictGet data "items" (Json.arr [])), r.2)

/-- `APIClient.get_session`. -/
def get_session (client : APIClient) (net : Network)
    (project_name session_name : String) :
    Except ApiError Json × List HttpRequest :=
  client.request_get net
    ("/projects/" ++ project_name ++ "/agentic-sessions/" ++ session_name)
    "session"

/-- `APIClient.get_session_k8s_resources`. -/
def get_session_k8s_resources (client : APIClient) (net : Network)
    (project_name session_name : String) :
    Except ApiError Json × List HttpRequest :=
  client.request_get net
    ("/projects/" ++ project_name ++ "/agentic-sessions/" ++ session_name ++
      "/k8s-resources") "k8s resources"

/-- `APIClient.list_session_workspace`: unwrap `files` (default `[]`). -/
def list_session_workspace (client : APIClient) (net : Network)
    (project_name session_name : String) :
    Except ApiError Json × List HttpRequest :=
  let r := client.request_get net
    ("/projects/" ++ project_name ++ "/agentic-sessions/" ++ session_name ++
      "/workspace") "workspace"
  (r.1.bind (fun data => pyDictGet data "files" (Json.arr [])), r.2)

/-- `APIClient.get_workspace_file`: the path-traversal gate (`".." in
path` raises `ValueError` before any request), then the workspace-file
GET. -/
def get_workspace_file (client : APIClient) (net : Network)
    (project_name session_name path : String) :
    Except ApiError Json × List HttpRequest :=
  if containsDotDot path then
    (.error (.valueError "Path cannot contain '..' components"), [])
  else
    client.request_get net
      ("/projects/" ++ project_name ++ "/agentic-sessions/" ++ session_name ++
        "/workspace/" ++ path) "file"

/-- `APIClient.list_ootb_workflows`: GET `/workflows/ootb`, unwrap
`workflows` (default `[]`). -/
def list_ootb_workflows (client : APIClient) (net : Network) :
    Except ApiError Json × List HttpRequest :=
  let r := client.request_get net "/workflows/ootb" "workflows"
  (r.1.bind (fun data => pyDictGet data "workflows" (Json.arr [])), r.2)

/-- `APIClient.get_workflow_metadata`. -/
def get_workflow_metadata (client : APIClient) (net : Network)
    (project_name session_name : String) :
    Except ApiError Json × List HttpRequest :=
  client.request_get net
    ("/projects/" ++ project_name ++ "/agentic-sessions/" ++ session_name ++
      "/workflow/metadata") "workflow metadata"

/-- `APIClient.get_cluster_info`: GET `/cluster-info`. -/
def get_cluster_info (client : APIClient) (net : Network) :
    Except ApiError Json × List HttpRequest :=
  client.request_get net "/cluster-info" "cluster info"

/-- `APIClient.get_health`: GET `/health` against
`self.base_url.replace("/api", "")` — every occurrence of the substring
`/api` is removed, not only a suffix. -/
def get_health (client : APIClient) (net : Network) :
    Except ApiError Json × List HttpRequest :=
  request_get_at (pyReplaceDel client.base_url "/api") net "/health"
    "health status"

end APIClient

namespace Server

/-- The `list_projects` tool: `format_json({"projects": projects,
"count": len(projects)})` on success, the `except Exception` branch's
text otherwise. -/
def list_projects (client : APIClient) (net : Network) : String :=
  match (APIClient.list_projects client net).1.bind (fun projects =>
      (pyLen projects).map (fun n =>
        format_json (.obj [("projects", projects), ("count", .num n)]))) with
  | .ok s => s
  | .error e => "Error listing projects: " ++ e.message

/-- The `get_project` tool. -/
def get_project (client : APIClient) (net : Network) (project_name : String) :
    String :=
  match (APIClient.get_project client net project_name).1.map format_json with
  | .ok s => s
  | .error e => "Error getting project: " ++ e.message

/-- The `check_project_access` tool. -/
def check_project_access (client : APIClient) (net : Network)
    (project_name : String) : String :=
  match (APIClient.check_project_access client net project_name).1.map
      format_json with
  | .ok s => s
  | .error e => "Error checking project access: " ++ e.message

/-- The `list_sessions` tool. -/
def list_sessions (client : APIClient) (net : Network) (project_name : String) :
    String :=
  match (APIClient.list_sessions client net project_name).1.bind
      (fun sessions => (pyLen sessions).map (fun n =>
        format_json (.obj [("sessions", sessions), ("count", .num n)]))) with
  | .ok s => s
  | .error e => "Error listing sessions: " ++ e.message

/-- The `get_session` tool. -/
def get_session (client : APIClient) (net : Network)
    (project_name session_name : String) : String :=
  match (APIClient.get_session client net project_name session_name).1.map
      format_json with
  | .ok s => s
  | .error e => "Error getting session: " ++ e.message

/-- The `get_session_k8s_resources` tool. -/
def get_session_k8s_resources (client : APIClient) (net : Network)
    (project_name session_name : String) : String :=
  match (APIClient.get_session_k8s_resources client net project_name
      session_name).1.map format_json with
  | .ok s => s
  | .error e => "Error getting Kubernetes resources: " ++ e.message

/-- The `list_session_workspace` tool. -/
def list_session_workspace (client : APIClient) (net : Network)
    (project_name session_name : String) : String :=
  match (APIClient.list_session_workspace client net project_name
      session_name).1.bind (fun files => (pyLen files).map (fun n =>
        format_json (.obj [("files", files), ("count", .num n)]))) with
  | .ok s => s
  | .error e => "Error listing workspace: " ++ e.message

/-- The `get_workspace_file` tool: `except ValueError` is matched before
`except Exception`, so `ValueError` instances (the path gate, and
`json.JSONDecodeError` as a `ValueError` subclass) yield the
`"Invalid path: ..."` text, every other failure the `"Error getting
workspace file: ..."` text. -/
def get_workspace_file (client : APIClient) (net : Network)
    (project_name session_name path : String) : String :=
  match (APIClient.get_workspace_file client net project_name session_name
      path).1.map format_json with
  | .ok s => s
  | .error e =>
      if e.isValueError then "Invalid path: " ++ e.message
      else "Error getting workspace file: " ++ e.message

/-- The `list_ootb_workflows` tool. -/
def list_ootb_workflows (client : APIClient) (net : Network) : String :=
  match (APIClient.list_ootb_workflows client net).1.bind (fun workflows =>
      (pyLen workflows).map (fun n =>
        format_json (.obj [("workflows", workflows), ("count", .num n)]))) with
  | .ok s => s
  | .error e => "Error listing workflows: " ++ e.message

/-- The `get_workflow_metadata` tool. -/
def get_workflow_metadata (client : APIClient) (net : Network)
    (project_name session_name : String) : String :=
  match (APIClient.get_workflow_metadata client net project_name
      session_name).1.map format_json with
  | .ok s => s
  | .error e => "Error getting workflow metadata: " ++ e.message

/-- The `get_cluster_info` tool. -/
def get_cluster_info (client : APIClient) (net : Network) : String :=
  match (APIClient.get_cluster_info client net).1.map format_json with
  | .ok s => s
  | .error e => "Error getting cluster info: " ++ e.message

/-- The `get_health` tool. -/
def get_health (client : APIClient) (net : Network) : String :=
  match (APIClient.get_health client net).1.map format_json with
  | .ok s => s
  | .error e => "Error getting health status: " ++ e.message

/-- `main()` from server.py, abstracted over what serving does: construct
the client from the environment (no arguments), run the stdio server on
success; any `ValueError`/`Exception` leads to `sys.exit(1)`.  The
returned `Nat` is the process exit code. -/
def main (env : Env) (serve : APIClient → Except ApiError Unit) : Nat :=
  match APIClient.init env none none with
  | .error _ => 1
  | .ok client =>
      match serve client with
      | .ok _ => 0
      | .error _ => 1

end Server

/-- A network oracle that refuses every connection (no request succeeds). -/
def refuseNet : Network := fun _ => HttpResult.connectError

/-- A network oracle that answers every request with status 404. -/
def notFoundNet : Network := fun _ => HttpResult.success ⟨404, .error "no body"⟩

/-- Whether the string `s` starts with `marker` (boolean, on char lists). -/
def textHasPrefix (s marker : String) : Bool :=
  marker.data.isPrefixOf s.data

/-- Whether the string `s` contains `sub` as a contiguous substring
(Python's case-sensitive `sub in s`). -/
def strContainsSub (s sub : String) : Bool :=
  hasSubstr sub.data s.data

/-- `hasSubstr` decides contiguous-substring occurrence. -/
lemma hasSubstr_iff (pat s : List Char) : hasSubstr pat s = true ↔ pat <:+: s := by
  induction s with
  | nil =>
      simp [hasSubstr, List.isEmpty_iff, List.infix_nil]
  | cons c cs ih =>
      simp [hasSubstr, List.isPrefixOf_iff_prefix, ih, List.infix_cons_iff]

/-- C1: whenever `".."` occurs anywhere in the path argument,
`get_workspace_file` raises the path-gate `ValueError` immediately and
dispatches no HTTP request at all. -/
theorem c1_path_gate (client : APIClient) (net : Network)
    (project_name session_name path : String)
    (h : ['.', '.'] <:+: path.data) :
    APIClient.get_workspace_file client net project_name session_name path =
      (.error (.valueError "Path cannot contain '..' components"), []) := by
  have hc : containsDotDot path = true := (hasSubstr_iff _ _).mpr h
  simp [APIClient.get_workspace_file, hc]

/-- C1 witness: the concrete traversal path `"../etc/passwd"` is rejected
with zero dispatched requests. -/
theorem c1_path_gate_witness :
    APIClient.get_workspace_file ⟨"http://test-backend:8080/api", "tok"⟩
        refuseNet "test-project" "test-session" "../etc/passwd" =
      (.error (.valueError "Path cannot contain '..' components"), []) :=
  c1_path_gate _ _ _ _ _ (by decide)

/-- C9: the gate rejects by substring, not by path segment: the file name
`"notes..txt"` has no `".."` segment (its only slash-separated segment is
the whole name), yet the operation is rejected with zero dispatched
requests. -/
theorem c9_substring_gate (client : APIClient) (net : Network)
    (project_name session_name : String) :
    ['.', '.'] ∉ splitOnChar '/' "notes..txt".data ∧
    APIClient.get_workspace_file client net project_name session_name
        "notes..txt" =
      (.error (.valueError "Path cannot contain '..' components"), []) := by
  have hc : containsDotDot "notes..txt" = true := by decide
  exact ⟨by decide, by simp [APIClient.get_workspace_file, hc]⟩

/-- C10: with no token argument, a `BOT_TOKEN` set to the empty string is
treated exactly like an unset `BOT_TOKEN`: construction raises the same
`ValueError`. -/
theorem c10_empty_token (url_env : Option String) (base_url : Option String) :
    APIClient.init ⟨url_env, some ""⟩ base_url none =
      .error (.valueError "BOT_TOKEN environment variable must be set") ∧
    APIClient.init ⟨url_env, some ""⟩ base_url none =
      APIClient.init ⟨url_env, none⟩ base_url none :=
  ⟨rfl, rfl⟩

/-- C4: with no token argument and `BOT_TOKEN` unset (or empty),
construction raises the configuration `ValueError`, no client value is
produced, and `main` exits with code 1.  `APIClient.init` takes no
`Network`, so construction can perform no network I/O. -/
theorem c4_missing_credential (env : Env)
    (serve : APIClient → Except ApiError Unit) (base_url : Option String)
    (h : env.BOT_TOKEN = none ∨ env.BOT_TOKEN = some "") :
    APIClient.init env base_url none =
      .error (.valueError "BOT_TOKEN environment variable must be set") ∧
    (∀ c : APIClient, APIClient.init env base_url none ≠ .ok c) ∧
    Server.main env serve = 1 := by
  have hinit : ∀ b : Option String, APIClient.init env b none =
      .error (.valueError "BOT_TOKEN environment variable must be set") := by
    intro b
    rcases h with h | h <;> simp [APIClient.init, pyOr, getenvD, h]
  refine ⟨hinit base_url, ?_, ?_⟩
  · intro c hc
    rw [hinit base_url] at hc
    exact absurd hc (by simp)
  · simp [Server.main, hinit none]

/-- C4 witness: a fully unset environment at concrete arguments. -/
theorem c4_missing_credential_witness :
    APIClient.init ⟨none, none⟩ none none =
      .error (.valueError "BOT_TOKEN environment variable must be set") ∧
    Server.main ⟨none, none⟩ (fun _ => .ok ()) = 1 := by
  have h := c4_missing_credential ⟨none, none⟩ (fun _ => .ok ()) none (Or.inl rfl)
  exact ⟨h.1, h.2.2⟩

/-- Every GET helper dispatches exactly the one request it was asked,
whatever the network does. -/
lemma request_get_at_trace (base : String) (net : Network) (path rt : String) :
    (APIClient.request_get_at base net path rt).2 = [⟨base, path⟩] := by
  cases hn : net ⟨base, path⟩ <;> simp [APIClient.request_get_at, hn]

/-- C2: `_handle_response` maps each status class to exactly its error
category — 2xx to the parsed body, 401 to the authentication failure,
403 to access denied naming the resource kind, 404 to not-found,
`>= 500` to a backend error whose message is the body's `error` field
when present and the fixed unknown-error string otherwise, and every
remaining status to a request-failed error carrying the status — and no
operation dispatches more than one request (no retry in any branch). -/
theorem c2_response_mapping :
    (∀ (rt : String) (s : Nat) (j : Json), 200 ≤ s → s < 300 →
      handle_response ⟨s, .ok j⟩ rt = .ok j) ∧
    (∀ (rt : String) (b : Except String Json),
      handle_response ⟨401, b⟩ rt = .error .authenticationFailed) ∧
    (∀ (rt : String) (b : Except String Json),
      handle_response ⟨403, b⟩ rt = .error (.accessDenied rt) ∧
        rt.data <:+: (ApiError.message (.accessDenied rt)).data) ∧
    (∀ (rt : String) (b : Except String Json),
      handle_response ⟨404, b⟩ rt = .error (.notFound rt)) ∧
    (∀ (rt : String) (s : Nat) (fields : List (String × Json)) (m : String),
      500 ≤ s → lookupField fields "error" = some (.str m) →
      handle_response ⟨s, .ok (.obj fields)⟩ rt = .error (.backendError m)) ∧
    (∀ (rt : String) (s : Nat) (b : Except String Json), 500 ≤ s →
      (∀ fields, b = .ok (.obj fields) → lookupField fields "error" = none) →
      handle_response ⟨s, b⟩ rt =
        .error (.backendError "Unknown backend error")) ∧
    (∀ (rt : String) (s : Nat) (b : Except String Json),
      (s < 200 ∨ (300 ≤ s ∧ s < 500)) → s ≠ 401 → s ≠ 403 → s ≠ 404 →
      handle_response ⟨s, b⟩ rt = .error (.requestFailed s)) ∧
    (∀ (client : APIClient) (net : Network) (p sn path : String),
      (APIClient.list_projects client net).2.length ≤ 1 ∧
      (APIClient.get_project client net p).2.length ≤ 1 ∧
      (APIClient.check_project_access client net p).2.length ≤ 1 ∧
      (APIClient.list_sessions client net p).2.length ≤ 1 ∧
      (APIClient.get_session client net p sn).2.length ≤ 1 ∧
      (APIClient.get_session_k8s_resources client net p sn).2.length ≤ 1 ∧
      (APIClient.list_session_workspace client net p sn).2.length ≤ 1 ∧
      (APIClient.get_workspace_file client net p sn path).2.length ≤ 1 ∧
      (APIClient.list_ootb_workflows client net).2.length ≤ 1 ∧
      (APIClient.get_workflow_metadata client net p sn).2.length ≤ 1 ∧
      (APIClient.get_cluster_info client net).2.length ≤ 1 ∧
      (APIClient.get_health client net).2.length ≤ 1) := by
  refine ⟨?_, ?_, ?_, ?_, ?_, ?_, ?_, ?_⟩
  · intro rt s j h1 h2
    simp [handle_response, h1, h2]
  · intro rt b
    simp [handle_response]
  · intro rt b
    refine ⟨by simp [handle_response], ?_⟩
    simp only [ApiError.message]
    rw [String.data_append, String.data_append]
    exact List.infix_append _ _ _
  · intro rt b
    simp [handle_response]
  · intro rt s fields m h5 hl
    have h1 : ¬(200 ≤ s ∧ s < 300) := by omega
    have h2 : s ≠ 401 := by omega
    have h3 : s ≠ 403 := by omega
    have h4 : s ≠ 404 := by omega
    simp [handle_response, h1, h2, h3, h4, h5,
      handle_response.backendErrorMsg, hl, pyStrJson]
  · intro rt s b h5 hb
    have h1 : ¬(200 ≤ s ∧ s < 300) := by omega
    have h2 : s ≠ 401 := by omega
    have h3 : s ≠ 403 := by omega
    have h4 : s ≠ 404 := by omega
    have hmsg : handle_response.backendErrorMsg b = "Unknown backend error" := by
      rcases b with e | j
      · rfl
      · cases j with
        | obj fields => simp [handle_response.backendErrorMsg, hb fields rfl]
        | str s => rfl
        | num n => rfl
        | bool v => rfl
        | null => rfl
        | arr elems => rfl
    simp [handle_response, h1, h2, h3, h4, h5, hmsg]
  · intro rt s b h h1 h2 h3
    have hA : ¬(200 ≤ s ∧ s < 300) := by omega
    have hB : ¬(500 ≤ s) := by omega
    simp [handle_response, hA, h1, h2, h3, hB]
  · intro client net p sn path
    refine ⟨?_, ?_, ?_, ?_, ?_, ?_, ?_, ?_, ?_, ?_, ?_, ?_⟩ <;>
      first
      | simp [APIClient.list_projects, APIClient.get_project,
          APIClient.check_project_access, APIClient.list_sessions,
          APIClient.get_session, APIClient.get_session_k8s_resources,
          APIClient.list_session_workspace, APIClient.list_ootb_workflows,
          APIClient.get_workflow_metadata, APIClient.get_cluster_info,
          APIClient.get_health, APIClient.request_get, request_get_at_trace]
      | (by_cases hc : containsDotDot path <;>
          simp [APIClient.get_workspace_file, hc, APIClient.request_get,
            request_get_at_trace])

/-- C2 witness: one concrete instance of each hypothesis-bearing branch. -/
theorem c2_response_mapping_witness :
    handle_response ⟨204, .ok Json.null⟩ "resource" = .ok Json.null ∧
    handle_response ⟨500, .ok (.obj [("error", .str "boom")])⟩ "projects" =
      .error (.backendError "boom") ∧
    handle_response ⟨503, .error "invalid body"⟩ "projects" =
      .error (.backendError "Unknown backend error") ∧
    handle_response ⟨418, .ok Json.null⟩ "resource" =
      .error (.requestFailed 418) := by
  refine ⟨c2_response_mapping.1 "resource" 204 Json.null (by omega) (by omega),
    c2_response_mapping.2.2.2.2.1 "projects" 500 [("error", .str "boom")]
      "boom" (by omega) rfl,
    c2_response_mapping.2.2.2.2.2.1 "projects" 503 (.error "invalid body")
      (by omega) (fun fields h => nomatch h),
    c2_response_mapping.2.2.2.2.2.2.1 "resource" 418 (.ok Json.null)
      (by omega) (by omega) (by omega) (by omega)⟩

/-- C5: every listing operation unwraps its named collection field from a
successful (2xx) JSON-object body — `items` for projects and sessions,
`files` for the workspace listing, `workflows` for OOTB workflows — and
an absent field yields the empty list default rather than an error. -/
theorem c5_listing_unwrap :
    (∀ (client : APIClient) (net : Network) (s : Nat)
        (fields : List (String × Json)), 200 ≤ s → s < 300 →
      net ⟨client.base_url, "/projects"⟩ = .success ⟨s, .ok (.obj fields)⟩ →
      (APIClient.list_projects client net).1 =
        .ok ((lookupField fields "items").getD (Json.arr []))) ∧
    (∀ (client : APIClient) (net : Network) (p : String) (s : Nat)
        (fields : List (String × Json)), 200 ≤ s → s < 300 →
      net ⟨client.base_url, "/projects/" ++ p ++ "/agentic-sessions"⟩ =
        .success ⟨s, .ok (.obj fields)⟩ →
      (APIClient.list_sessions client net p).1 =
        .ok ((lookupField fields "items").getD (Json.arr []))) ∧
    (∀ (client : APIClient) (net : Network) (p sn : String) (s : Nat)
        (fields : List (String × Json)), 200 ≤ s → s < 300 →
      net ⟨client.base_url, "/projects/" ++ p ++ "/agentic-sessions/" ++ sn ++
          "/workspace"⟩ = .success ⟨s, .ok (.obj fields)⟩ →
      (APIClient.list_session_workspace client net p sn).1 =
        .ok ((lookupField fields "files").getD (Json.arr []))) ∧
    (∀ (client : APIClient) (net : Network) (s : Nat)
        (fields : List (String × Json)), 200 ≤ s → s < 300 →
      net ⟨client.base_url, "/workflows/ootb"⟩ =
        .success ⟨s, .ok (.obj fields)⟩ →
      (APIClient.list_ootb_workflows client net).1 =
        .ok ((lookupField fields "workflows").getD (Json.arr []))) := by
  refine ⟨?_, ?_, ?_, ?_⟩ <;>
    · intros client net
      intros
      simp_all [APIClient.list_projects, APIClient.list_sessions,
        APIClient.list_session_workspace, APIClient.list_ootb_workflows,
        APIClient.request_get, APIClient.request_get_at, handle_response,
        pyDictGet, Except.bind]

/-- C5 witness: the two-project listing body from the test suite, and an
absent `workflows` field yielding the empty sequence. -/
theorem c5_listing_unwrap_witness :
    (APIClient.list_projects ⟨"http://test-backend:8080/api", "tok-123"⟩
        (fun _ => .success ⟨200, .ok (.obj [("items", .arr
          [.obj [("metadata", .obj [("name", .str "project1")])],
           .obj [("metadata", .obj [("name", .str "project2")])]])])⟩)).1 =
      .ok (.arr
        [.obj [("metadata", .obj [("name", .str "project1")])],
         .obj [("metadata", .obj [("name", .str "project2")])]]) ∧
    (APIClient.list_ootb_workflows ⟨"http://test-backend:8080/api", "tok-123"⟩
        (fun _ => .success ⟨200, .ok (.obj [])⟩)).1 = .ok (.arr []) := by
  constructor
  · exact c5_listing_unwrap.1 ⟨"http://test-backend:8080/api", "tok-123"⟩
      (fun _ => .success ⟨200, .ok (.obj [("items", .arr
        [.obj [("metadata", .obj [("name", .str "project1")])],
         .obj [("metadata", .obj [("name", .str "project2")])]])])⟩)
      200
      [("items", .arr
        [.obj [("metadata", .obj [("name", .str "project1")])],
         .obj [("metadata", .obj [("name", .str "project2")])]])]
      (by omega) (by omega) rfl
  · exact c5_listing_unwrap.2.2.2 ⟨"http://test-backend:8080/api", "tok-123"⟩
      (fun _ => .success ⟨200, .ok (.obj [])⟩) 200 [] (by omega) (by omega) rfl

/-- When the client raises, the `list_projects` tool returns its error text. -/
lemma list_projects_error_text (client : APIClient) (net : Network)
    (e : ApiError) (h : (APIClient.list_projects client net).1 = .error e) :
    Server.list_projects client net = "Error listing projects: " ++ e.message := by
  simp [Server.list_projects, h, Except.bind]

/-- When the client raises, the `get_project` tool returns its error text. -/
lemma get_project_error_text (client : APIClient) (net : Network) (p : String)
    (e : ApiError) (h : (APIClient.get_project client net p).1 = .error e) :
    Server.get_project client net p = "Error getting project: " ++ e.message := by
  simp [Server.get_project, h, Except.map]

/-- When the client raises, the `check_project_access` tool returns its
error text. -/
lemma check_project_access_error_text (client : APIClient) (net : Network)
    (p : String) (e : ApiError)
    (h : (APIClient.check_project_access client net p).1 = .error e) :
    Server.check_project_access client net p =
      "Error checking project access: " ++ e.message := by
  simp [Server.check_project_access, h, Except.map]

/-- When the client raises, the `list_sessions` tool returns its error text. -/
lemma list_sessions_error_text (client : APIClient) (net : Network)
    (p : String) (e : ApiError)
    (h : (APIClient.list_sessions client net p).1 = .error e) :
    Server.list_sessions client net p =
      "Error listing sessions: " ++ e.message := by
  simp [Server.list_sessions, h, Except.bind]

/-- When the client raises, the `get_session` tool returns its error text. -/
lemma get_session_error_text (client : APIClient) (net : Network)
    (p sn : String) (e : ApiError)
    (h : (APIClient.get_session client net p sn).1 = .error e) :
    Server.get_session client net p sn =
      "Error getting session: " ++ e.message := by
  simp [Server.get_session, h, Except.map]

/-- When the client raises, the `get_session_k8s_resources` tool returns
its error text. -/
lemma get_session_k8s_resources_error_text (client : APIClient)
    (net : Network) (p sn : String) (e : ApiError)
    (h : (APIClient.get_session_k8s_resources client net p sn).1 = .error e) :
    Server.get_session_k8s_resources client net p sn =
      "Error getting Kubernetes resources: " ++ e.message := by
  simp [Server.get_session_k8s_resources, h, Except.map]

/-- When the client raises, the `list_session_workspace` tool returns its
error text. -/
lemma list_session_workspace_error_text (client : APIClient) (net : Network)
    (p sn : String) (e : ApiError)
    (h : (APIClient.list_session_workspace client net p sn).1 = .error e) :
    Server.list_session_workspace client net p sn =
      "Error listing workspace: " ++ e.message := by
  simp [Server.list_session_workspace, h, Except.bind]

/-- When the client raises, the `get_workspace_file` tool returns the
`except ValueError` text for `ValueError` instances and the
`except Exception` text for everything else. -/
lemma get_workspace_file_error_text (client : APIClient) (net : Network)
    (p sn path : String) (e : ApiError)
    (h : (APIClient.get_workspace_file client net p sn path).1 = .error e) :
    Server.get_workspace_file client net p sn path =
      if e.isValueError then "Invalid path: " ++ e.message
      else "Error getting workspace file: " ++ e.message := by
  simp [Server.get_workspace_file, h, Except.map]

/-- When the client raises, the `list_ootb_workflows` tool returns its
error text. -/
lemma list_ootb_workflows_error_text (client : APIClient) (net : Network)
    (e : ApiError)
    (h : (APIClient.list_ootb_workflows client net).1 = .error e) :
    Server.list_ootb_workflows client net =
      "Error listing workflows: " ++ e.message := by
  simp [Server.list_ootb_workflows, h, Except.bind]

/-- When the client raises, the `get_workflow_metadata` tool returns its
error text. -/
lemma get_workflow_metadata_error_text (client : APIClient) (net : Network)
    (p sn : String) (e : ApiError)
    (h : (APIClient.get_workflow_metadata client net p sn).1 = .error e) :
    Server.get_workflow_metadata client net p sn =
      "Error getting workflow metadata: " ++ e.message := by
  simp [Server.get_workflow_metadata, h, Except.map]

/-- When the client raises, the `get_cluster_info` tool returns its error
text. -/
lemma get_cluster_info_error_text (client : APIClient) (net : Network)
    (e : ApiError) (h : (APIClient.get_cluster_info client net).1 = .error e) :
    Server.get_cluster_info client net =
      "Error getting cluster info: " ++ e.message := by
  simp [Server.get_cluster_info, h, Except.map]

/-- When the client raises, the `get_health` tool returns its error text. -/
lemma get_health_error_text (client : APIClient) (net : Network)
    (e : ApiError) (h : (APIClient.get_health client net).1 = .error e) :
    Server.get_health client net =
      "Error getting health status: " ++ e.message := by
  simp [Server.get_health, h, Except.map]

/-- C3: every dispatcher tool converts every error raised by the transport
client (the path-gate `ValueError` included) into a text result instead
of propagating it: whenever the client operation errs, the tool's value
is the corresponding caller-facing string.  Each tool is a total function
into `String`, so every invocation terminates with a string result. -/
theorem c3_dispatcher_error_boundary :
    (∀ (client : APIClient) (net : Network) (e : ApiError),
      (APIClient.list_projects client net).1 = .error e →
      Server.list_projects client net =
        "Error listing projects: " ++ e.message) ∧
    (∀ (client : APIClient) (net : Network) (p : String) (e : ApiError),
      (APIClient.get_project client net p).1 = .error e →
      Server.get_project client net p =
        "Error getting project: " ++ e.message) ∧
    (∀ (client : APIClient) (net : Network) (p : String) (e : ApiError),
      (APIClient.check_project_access client net p).1 = .error e →
      Server.check_project_access client net p =
        "Error checking project access: " ++ e.message) ∧
    (∀ (client : APIClient) (net : Network) (p : String) (e : ApiError),
      (APIClient.list_sessions client net p).1 = .error e →
      Server.list_sessions client net p =
        "Error listing sessions: " ++ e.message) ∧
    (∀ (client : APIClient) (net : Network) (p sn : String) (e : ApiError),
      (APIClient.get_session client net p sn).1 = .error e →
      Server.get_session client net p sn =
        "Error getting session: " ++ e.message) ∧
    (∀ (client : APIClient) (net : Network) (p sn : String) (e : ApiError),
      (APIClient.get_session_k8s_resources client net p sn).1 = .error e →
      Server.get_session_k8s_resources client net p sn =
        "Error getting Kubernetes resources: " ++ e.message) ∧
    (∀ (client : APIClient) (net : Network) (p sn : String) (e : ApiError),
      (APIClient.list_session_workspace client net p sn).1 = .error e →
      Server.list_session_workspace client net p sn =
        "Error listing workspace: " ++ e.message) ∧
    (∀ (client : APIClient) (net : Network) (p sn path : String)
        (e : ApiError),
      (APIClient.get_workspace_file client net p sn path).1 = .error e →
      Server.get_workspace_file client net p sn path =
        if e.isValueError then "Invalid path: " ++ e.message
        else "Error getting workspace file: " ++ e.message) ∧
    (∀ (client : APIClient) (net : Network) (e : ApiError),
      (APIClient.list_ootb_workflows client net).1 = .error e →
      Server.list_ootb_workflows client net =
        "Error listing workflows: " ++ e.message) ∧
    (∀ (client : APIClient) (net : Network) (p sn : String) (e : ApiError),
      (APIClient.get_workflow_metadata client net p sn).1 = .error e →
      Server.get_workflow_metadata client net p sn =
        "Error getting workflow metadata: " ++ e.message) ∧
    (∀ (client : APIClient) (net : Network) (e : ApiError),
      (APIClient.get_cluster_info client net).1 = .error e →
      Server.get_cluster_info client net =
        "Error getting cluster info: " ++ e.message) ∧
    (∀ (client : APIClient) (net : Network) (e : ApiError),
      (APIClient.get_health client net).1 = .error e →
      Server.get_health client net =
        "Error getting health status: " ++ e.message) :=
  ⟨list_projects_error_text, get_project_error_text,
    check_project_access_error_text, list_sessions_error_text,
    get_session_error_text, get_session_k8s_resources_error_text,
    list_session_workspace_error_text, get_workspace_file_error_text,
    list_ootb_workflows_error_text, get_workflow_metadata_error_text,
    get_cluster_info_error_text, get_health_error_text⟩

/-- C3 witness: a 404 network turns `list_projects` into a string result,
an unreachable network turns `get_health` into a string result, and the
path-gate `ValueError` turns `get_workspace_file` into a string result. -/
theorem c3_dispatcher_error_boundary_witness :
    Server.list_projects ⟨"http://test-backend:8080/api", "tok"⟩ notFoundNet =
      "Error listing projects: Projects not found" ∧
    Server.get_health ⟨"http://test-backend:8080/api", "tok"⟩ refuseNet =
      "Error getting health status: Cannot reach backend API. Check cluster connectivity." ∧
    Server.get_workspace_file ⟨"http://test-backend:8080/api", "tok"⟩
        refuseNet "p" "s" "../etc/passwd" =
      "Invalid path: Path cannot contain '..' components" := by
  refine ⟨?_, ?_, ?_⟩
  · exact c3_dispatcher_error_boundary.1
      ⟨"http://test-backend:8080/api", "tok"⟩ notFoundNet
      (.notFound "projects") rfl
  · exact c3_dispatcher_error_boundary.2.2.2.2.2.2.2.2.2.2.2
      ⟨"http://test-backend:8080/api", "tok"⟩ refuseNet .connectError rfl
  · exact c3_dispatcher_error_boundary.2.2.2.2.2.2.2.1
      ⟨"http://test-backend:8080/api", "tok"⟩ refuseNet "p" "s" "../etc/passwd"
      (.valueError "Path cannot contain '..' components") rfl

/-- A marker that prefixes `pre` also prefixes `pre ++ rest`. -/
lemma textHasPrefix_append (pre rest marker : String)
    (h : textHasPrefix pre marker = true) :
    textHasPrefix (pre ++ rest) marker = true := by
  unfold textHasPrefix at h ⊢
  rw [String.data_append, List.isPrefixOf_iff_prefix] at *
  exact h.trans (List.prefix_append _ _)

/-- C6 counterexample: the path-gate `ValueError` is a failing invocation
of the `get_workspace_file` tool, yet its text result starts with
`"Invalid path"` and contains no `"Error"` marker at all — the claim's
"Error"-prefix property fails at this concrete input. -/
theorem c6_counterexample :
    Server.get_workspace_file ⟨"http://test-backend:8080/api", "tok"⟩
        refuseNet "p" "s" "../etc/passwd" =
      "Invalid path: Path cannot contain '..' components" ∧
    textHasPrefix
      (Server.get_workspace_file ⟨"http://test-backend:8080/api", "tok"⟩
        refuseNet "p" "s" "../etc/passwd") "Error" = false ∧
    strContainsSub
      (Server.get_workspace_file ⟨"http://test-backend:8080/api", "tok"⟩
        refuseNet "p" "s" "../etc/passwd") "Error" = false := by
  refine ⟨rfl, by decide, by decide⟩

/-- C6 amended: every failing tool invocation yields a text prefixed with
the `"Error"` marker, except failures of Python type `ValueError` in
`get_workspace_file` (the path-gate ValidationError, and JSON-decode
errors, a `ValueError` subclass), whose text is prefixed with
`"Invalid path: "` instead; in every case the text is the fixed prefix
followed by the exception's message string alone (no stack trace). -/
theorem c6_error_marker :
    (∀ (client : APIClient) (net : Network) (e : ApiError),
      (APIClient.list_projects client net).1 = .error e →
      textHasPrefix (Server.list_projects client net) "Error" = true) ∧
    (∀ (client : APIClient) (net : Network) (p : String) (e : ApiError),
      (APIClient.get_project client net p).1 = .error e →
      textHasPrefix (Server.get_project client net p) "Error" = true) ∧
    (∀ (client : APIClient) (net : Network) (p : String) (e : ApiError),
      (APIClient.check_project_access client net p).1 = .error e →
      textHasPrefix (Server.check_project_access client net p) "Error" = true) ∧
    (∀ (client : APIClient) (net : Network) (p : String) (e : ApiError),
      (APIClient.list_sessions client net p).1 = .error e →
      textHasPrefix (Server.list_sessions client net p) "Error" = true) ∧
    (∀ (client : APIClient) (net : Network) (p sn : String) (e : ApiError),
      (APIClient.get_session client net p sn).1 = .error e →
      textHasPrefix (Server.get_session client net p sn) "Error" = true) ∧
    (∀ (client : APIClient) (net : Network) (p sn : String) (e : ApiError),
      (APIClient.get_session_k8s_resources client net p sn).1 = .error e →
      textHasPrefix (Server.get_session_k8s_resources client net p sn)
        "Error" = true) ∧
    (∀ (client : APIClient) (net : Network) (p sn : String) (e : ApiError),
      (APIClient.list_session_workspace client net p sn).1 = .error e →
      textHasPrefix (Server.list_session_workspace client net p sn)
        "Error" = true) ∧
    (∀ (client : APIClient) (net : Network) (p sn path : String)
        (e : ApiError),
      (APIClient.get_workspace_file client net p sn path).1 = .error e →
      textHasPrefix (Server.get_workspace_file client net p sn path)
        (if e.isValueError then "Invalid path: " else "Error") = true) ∧
    (∀ (client : APIClient) (net : Network) (e : ApiError),
      (APIClient.list_ootb_workflows client net).1 = .error e →
      textHasPrefix (Server.list_ootb_workflows client net) "Error" = true) ∧
    (∀ (client : APIClient) (net : Network) (p sn : String) (e : ApiError),
      (APIClient.get_workflow_metadata client net p sn).1 = .error e →
      textHasPrefix (Server.get_workflow_metadata client net p sn)
        "Error" = true) ∧
    (∀ (client : APIClient) (net : Network) (e : ApiError),
      (APIClient.get_cluster_info client net).1 = .error e →
      textHasPrefix (Server.get_cluster_info client net) "Error" = true) ∧
    (∀ (client : APIClient) (net : Network) (e : ApiError),
      (APIClient.get_health client net).1 = .error e →
      textHasPrefix (Server.get_health client net) "Error" = true) := by
  refine ⟨?_, ?_, ?_, ?_, ?_, ?_, ?_, ?_, ?_, ?_, ?_, ?_⟩
  · intro client net e h
    rw [list_projects_error_text client net e h]
    exact textHasPrefix_append _ _ _ (by decide)
  · intro client net p e h
    rw [get_project_error_text client net p e h]
    exact textHasPrefix_append _ _ _ (by decide)
  · intro client net p e h
    rw [check_project_access_error_text client net p e h]
    exact textHasPrefix_append _ _ _ (by decide)
  · intro client net p e h
    rw [list_sessions_error_text client net p e h]
    exact textHasPrefix_append _ _ _ (by decide)
  · intro client net p sn e h
    rw [get_session_error_text client net p sn e h]
    exact textHasPrefix_append _ _ _ (by decide)
  · intro client net p sn e h
    rw [get_session_k8s_resources_error_text client net p sn e h]
    exact textHasPrefix_append _ _ _ (by decide)
  · intro client net p sn e h
    rw [list_session_workspace_error_text client net p sn e h]
    exact textHasPrefix_append _ _ _ (by decide)
  · intro client net p sn path e h
    rw [get_workspace_file_error_text client net p sn path e h]
    by_cases hv : e.isValueError
    · simp only [hv, if_true, if_pos]
      exact textHasPrefix_append _ _ _ (by decide)
    · simp only [hv, Bool.false_eq_true, if_false, if_neg]
      exact textHasPrefix_append _ _ _ (by decide)
  · intro client net e h
    rw [list_ootb_workflows_error_text client net e h]
    exact textHasPrefix_append _ _ _ (by decide)
  · intro client net p sn e h
    rw [get_workflow_metadata_error_text client net p sn e h]
    exact textHasPrefix_append _ _ _ (by decide)
  · intro client net e h
    rw [get_cluster_info_error_text client net e h]
    exact textHasPrefix_append _ _ _ (by decide)
  · intro client net e h
    rw [get_health_error_text client net e h]
    exact textHasPrefix_append _ _ _ (by decide)

/-- C6 amended witness: the "Error" marker on a concrete 404 failure, and
the "Invalid path: " marker on the concrete path-gate failure. -/
theorem c6_error_marker_witness :
    textHasPrefix
      (Server.list_projects ⟨"http://test-backend:8080/api", "tok"⟩
        notFoundNet) "Error" = true ∧
    textHasPrefix
      (Server.get_workspace_file ⟨"http://test-backend:8080/api", "tok"⟩
        refuseNet "p" "s" "../etc/passwd") "Invalid path: " = true := by
  constructor
  · exact c6_error_marker.1 ⟨"http://test-backend:8080/api", "tok"⟩
      notFoundNet (.notFound "projects") rfl
  · exact c6_error_marker.2.2.2.2.2.2.2.1
      ⟨"http://test-backend:8080/api", "tok"⟩ refuseNet "p" "s" "../etc/passwd"
      (.valueError "Path cannot contain '..' components") rfl

/-- C7 counterexample: at a concrete 404 response, `get_project` raises
the not-found error and its message is exactly `"Project not found"` —
which contains the words `"not found"` but does NOT contain the resource
kind `"project"` as a (case-sensitive) substring, because
`str.capitalize` upper-cases it; the claim's containment fails here. -/
theorem c7_counterexample :
    (APIClient.get_project ⟨"http://test-backend:8080/api", "tok"⟩
        notFoundNet "nonexistent").1 = .error (.notFound "project") ∧
    ApiError.message (.notFound "project") = "Project not found" ∧
    strContainsSub (ApiError.message (.notFound "project")) "project" =
      false ∧
    strContainsSub (ApiError.message (.notFound "project")) "not found" =
      true := by
  refine ⟨rfl, rfl, by decide, by decide⟩

/-- C7 amended: on a 404 response `get_project` raises the not-found
error for resource kind `"project"`, whose message contains the
capitalized resource kind `"Project"` and the words `"not found"`. -/
theorem c7_get_project_not_found (client : APIClient) (net : Network)
    (project_name : String) (b : Except String Json)
    (h : net ⟨client.base_url, "/projects/" ++ project_name⟩ =
      .success ⟨404, b⟩) :
    (APIClient.get_project client net project_name).1 =
      .error (.notFound "project") ∧
    strContainsSub (ApiError.message (.notFound "project")) "Project" =
      true ∧
    strContainsSub (ApiError.message (.notFound "project")) "not found" =
      true := by
  refine ⟨?_, by decide, by decide⟩
  simp [APIClient.get_project, APIClient.request_get,
    APIClient.request_get_at, h, handle_response]

/-- C7 amended witness: the concrete 404 network instance. -/
theorem c7_get_project_not_found_witness :
    (APIClient.get_project ⟨"http://test-backend:8080/api", "tok"⟩
        notFoundNet "nonexistent").1 = .error (.notFound "project") ∧
    strContainsSub (ApiError.message (.notFound "project")) "Project" =
      true :=
  have h := c7_get_project_not_found ⟨"http://test-backend:8080/api", "tok"⟩
    notFoundNet "nonexistent" (.error "no body") rfl
  ⟨h.1, h.2.1⟩

/-- `removeOccsAux` leaves the empty list unchanged at any fuel. -/
lemma removeOccsAux_nil (fuel : Nat) (pat : List Char) :
    removeOccsAux fuel [] pat = [] := by
  cases fuel <;> rfl

/-- Removing `"/api"` occurrences from `p ++ "/api"` yields `p` when
`"/api"` does not occur inside `p` itself: the pattern has no border, so
the appended suffix is the only occurrence. -/
lemma removeOccs_slashapi_suffix (p : List Char) (fuel : Nat)
    (hf : p.length + 4 ≤ fuel)
    (h : hasSubstr ['/', 'a', 'p', 'i'] p = false) :
    removeOccsAux fuel (p ++ ['/', 'a', 'p', 'i']) ['/', 'a', 'p', 'i'] = p := by
  induction p generalizing fuel with
  | nil =>
      rcases fuel with _ | f
      · omega
      · have hstep : removeOccsAux (f + 1) ([] ++ ['/', 'a', 'p', 'i'])
            ['/', 'a', 'p', 'i'] = removeOccsAux f [] ['/', 'a', 'p', 'i'] := rfl
        rw [hstep, removeOccsAux_nil]
  | cons c cs ih =>
      rcases fuel with _ | f
      · simp at hf
      · simp only [hasSubstr, Bool.or_eq_false_iff] at h
        have hpre : List.isPrefixOf ['/', 'a', 'p', 'i'] (c :: cs) = false := h.1
        have hsub : hasSubstr ['/', 'a', 'p', 'i'] cs = false := h.2
        have hpre2 : List.isPrefixOf ['/', 'a', 'p', 'i']
            (c :: (cs ++ ['/', 'a', 'p', 'i'])) = false := by
          rcases cs with _ | ⟨a, _ | ⟨b, _ | ⟨d, tl⟩⟩⟩
          · simp [List.isPrefixOf, show ('a' == '/') = false from rfl]
          · simp [List.isPrefixOf, show ('p' == '/') = false from rfl]
          · simp [List.isPrefixOf, show ('i' == '/') = false from rfl]
          · simpa [List.isPrefixOf] using hpre
        show removeOccsAux (f + 1) (c :: (cs ++ ['/', 'a', 'p', 'i']))
            ['/', 'a', 'p', 'i'] = c :: cs
        simp only [removeOccsAux, hpre2, Bool.false_and, if_neg,
          Bool.false_eq_true, not_false_iff]
        have hlen : cs.length + 4 ≤ f := by simp at hf; omega
        rw [ih f hlen hsub]

/-- `s.replace("/api", "")` on a base URL of the form `pre ++ "/api"`
with no other occurrence yields `pre`. -/
lemma pyReplaceDel_suffix (pre : String)
    (h : strContainsSub pre "/api" = false) :
    pyReplaceDel (pre ++ "/api") "/api" = pre := by
  have hd : (pre ++ "/api").data = pre.data ++ ['/', 'a', 'p', 'i'] := by
    rw [String.data_append]
  have hpat : ("/api" : String).data = ['/', 'a', 'p', 'i'] := rfl
  have hh : hasSubstr ['/', 'a', 'p', 'i'] pre.data = false := by
    unfold strContainsSub at h
    rwa [hpat] at h
  unfold pyReplaceDel
  rw [hd, hpat, removeOccs_slashapi_suffix pre.data _ (by simp) hh]

/-- C8 counterexample: with configured base address `"http://h/api/api"`
(which has `"/api"` as a suffix), `get_health` resolves against
`"http://h"` — the textual replace removes both occurrences — and not
against `"http://h/api"`, the base with only the suffix removed; the
claim's universally quantified suffix property fails at this input. -/
theorem c8_counterexample :
    (APIClient.get_health ⟨"http://h/api/api", "tok"⟩ refuseNet).2 =
      [⟨"http://h", "/health"⟩] ∧
    pyReplaceDel "http://h/api/api" "/api" ≠ "http://h/api" := by
  refine ⟨rfl, by decide⟩

/-- C8 amended: `get_health` issues its single request for `/health`
against the configured base address with EVERY occurrence of the
substring `"/api"` removed; in particular, when `"/api"` occurs in the
base only as a suffix, the effective address is the base with that
suffix removed. -/
theorem c8_health_base :
    (∀ (client : APIClient) (net : Network),
      (APIClient.get_health client net).2 =
        [⟨pyReplaceDel client.base_url "/api", "/health"⟩]) ∧
    (∀ pre : String, strContainsSub pre "/api" = false →
      pyReplaceDel (pre ++ "/api") "/api" = pre) := by
  constructor
  · intro client net
    exact request_get_at_trace _ net _ _
  · exact pyReplaceDel_suffix

/-- C8 amended witness: the default-style base address
`"http://test-backend:8080/api"` resolves health against
`"http://test-backend:8080"`. -/
theorem c8_health_base_witness :
    pyReplaceDel ("http://test-backend:8080" ++ "/api") "/api" =
      "http://test-backend:8080" :=
  c8_health_base.2 "http://test-backend:8080" (by decide)
